import Mathlib

/-!
Verification of the CLI adapter in src/claude_wrapper.py.

The program reads one prompt from its argument vector, delegates it to an
external query client, prints the client's answer to standard output, and
maps every fault of the delegate to a one-line diagnostic on standard error
with exit code 1.

The embedding below models the delegate (construction of the client and its
query operation, each of which may fault with a textual description) as an
explicit parameter, and models one process invocation as a pure function
from the argument vector and the delegate's behavior to the observable
outcome: the bytes written to the two streams, the exit code, and — for
reasoning about the delegate contract — whether the client was constructed
and which prompt, if any, was handed to the query operation.  Python's
print appends a newline to everything it writes, so every line on either
stream carries its terminating newline character.
-/

namespace ClaudeWrapper

/-- Behavior of the external delegate (the query client): constructing the
client may fault, and the query operation, given the prompt string, may
fault or return a result string.  A fault carries its textual description
(what Python's str(e) yields). -/
structure DelegateBehavior where
  construct : Except String Unit
  query : String → Except String String

/-- Observable outcome of one process invocation: the bytes written to
standard output and standard error, the exit code, whether the delegate
client was constructed, and the prompt passed to the query operation (none
when the query operation was never invoked). -/
structure RunResult where
  stdout : String
  stderr : String
  exitCode : Nat
  constructed : Bool
  queried : Option String
deriving Repr, DecidableEq

/-- The combined effect of the delegate call inside the try block:
construct the client, then invoke its query operation on the prompt.  A
construction fault prevents the query from running. -/
def delegateCall (d : DelegateBehavior) (prompt : String) : Except String String :=
  match d.construct with
  | .error e => .error e
  | .ok () => d.query prompt

/-- The prompt the program reads: sys.argv[1].  main only evaluates this
behind the length guard, so the default value is never consulted there. -/
def promptOf (argv : List String) : String :=
  argv.getD 1 ""

/-- Shallow embedding of main() from src/claude_wrapper.py.  argv is the
full argument vector including the program name (Python's sys.argv), so the
guard len(sys.argv) < 2 rejects any vector with fewer than one element
after the program name.  On the success path print(result) writes the
result followed by a newline to standard output and the process falls
through with exit code 0; on either failure path a single line is printed
to standard error and the process exits with code 1. -/
def main (argv : List String) (d : DelegateBehavior) : RunResult :=
  if argv.length < 2 then
    { stdout := ""
      stderr := "Error: No prompt provided" ++ "\n"
      exitCode := 1
      constructed := false
      queried := none }
  else
    match d.construct with
    | .error e =>
      { stdout := ""
        stderr := "Error: " ++ e ++ "\n"
        exitCode := 1
        constructed := true
        queried := none }
    | .ok () =>
      match d.query (promptOf argv) with
      | .error e =>
        { stdout := ""
          stderr := "Error: " ++ e ++ "\n"
          exitCode := 1
          constructed := true
          queried := some (promptOf argv) }
      | .ok result =>
        { stdout := result ++ "\n"
          stderr := ""
          exitCode := 0
          constructed := true
          queried := some (promptOf argv) }

/-- A delegate whose construction succeeds and whose query returns a fixed
string, used for concrete witnesses. -/
def okDelegate (r : String) : DelegateBehavior :=
  { construct := .ok (), query := fun _ => .ok r }

/-- A delegate whose query faults with a fixed description, used for
concrete witnesses. -/
def faultingDelegate (e : String) : DelegateBehavior :=
  { construct := .ok (), query := fun _ => .error e }

/-- A delegate whose construction faults with a fixed description, used for
concrete witnesses. -/
def constructFaultDelegate (e : String) : DelegateBehavior :=
  { construct := .error e, query := fun _ => .ok "unused" }

/-- The prompt of a vector with at least one argument after the program
name is that first argument, verbatim. -/
theorem promptOf_cons (prog p : String) (rest : List String) :
    promptOf (prog :: p :: rest) = p :=
  rfl

/-- Helper: on a run with a prompt argument whose delegate call faults with
description e, the observable outcome is the single error line on standard
error, empty standard output, and exit code 1. -/
theorem main_fault_eq (argv : List String) (d : DelegateBehavior) (e : String)
    (hlen : 2 ≤ argv.length)
    (hfault : delegateCall d (promptOf argv) = .error e) :
    (main argv d).stderr = "Error: " ++ e ++ "\n" ∧
    (main argv d).stdout = "" ∧ (main argv d).exitCode = 1 := by
  unfold delegateCall at hfault
  unfold main
  rw [if_neg (by omega)]
  cases hc : d.construct with
  | error e2 =>
    rw [hc] at hfault
    injection hfault with he
    subst he
    simp
  | ok u =>
    cases u
    rw [hc] at hfault
    cases hq : d.query (promptOf argv) with
    | error e2 =>
      rw [hq] at hfault
      injection hfault with he
      subst he
      simp [hq]
    | ok r =>
      rw [hq] at hfault
      exact absurd hfault (by simp)

/-- Helper: on a run with a prompt argument whose delegate call returns the
result r, the observable outcome is r and a newline on standard output,
empty standard error, and exit code 0. -/
theorem main_ok_eq (argv : List String) (d : DelegateBehavior) (r : String)
    (hlen : 2 ≤ argv.length)
    (hok : delegateCall d (promptOf argv) = .ok r) :
    (main argv d).stdout = r ++ "\n" ∧
    (main argv d).stderr = "" ∧ (main argv d).exitCode = 0 := by
  unfold delegateCall at hok
  unfold main
  rw [if_neg (by omega)]
  cases hc : d.construct with
  | error e2 =>
    rw [hc] at hok
    exact absurd hok (by simp)
  | ok u =>
    cases u
    rw [hc] at hok
    cases hq : d.query (promptOf argv) with
    | error e2 =>
      rw [hq] at hok
      exact absurd hok (by simp)
    | ok r2 =>
      rw [hq] at hok
      injection hok with hr
      subst hr
      simp [hq]

/-- Helper: a string with a newline appended is never the empty string, so
every diagnostic line and every printed result leaves its stream
nonempty. -/
theorem append_newline_ne_empty (s : String) : s ++ "\n" ≠ "" := by
  intro h
  have hlen : (s ++ "\n").length = ("" : String).length := by rw [h]
  rw [String.length_append] at hlen
  have h1 : ("\n" : String).length = 1 := rfl
  have h0 : ("" : String).length = 0 := rfl
  omega

/-- C1: for every prompt argument, if the delegate call (client
construction or the query operation) raises a fault with textual
description e, the program writes exactly the single line "Error: e"
(message plus print's terminating newline) to standard error, writes
nothing to standard output, and terminates with exit code 1. -/
theorem claim_C1_fault_mapping (argv : List String) (d : DelegateBehavior) (e : String)
    (hlen : 2 ≤ argv.length)
    (hfault : delegateCall d (promptOf argv) = .error e) :
    (main argv d).stderr = "Error: " ++ e ++ "\n" ∧
    (main argv d).stdout = "" ∧ (main argv d).exitCode = 1 :=
  main_fault_eq argv d e hlen hfault

/-- Witness for C1: a delegate whose query faults with description
"rate limited" yields that exact error line, empty stdout, exit code 1. -/
theorem claim_C1_fault_mapping_witness :
    (main ["prog", "hi"] (faultingDelegate "rate limited")).stderr =
      "Error: " ++ "rate limited" ++ "\n" ∧
    (main ["prog", "hi"] (faultingDelegate "rate limited")).stdout = "" ∧
    (main ["prog", "hi"] (faultingDelegate "rate limited")).exitCode = 1 :=
  claim_C1_fault_mapping ["prog", "hi"] (faultingDelegate "rate limited") "rate limited"
    (by decide) rfl

/-- C2: for every prompt argument and every result string r returned by
the delegate's query operation, the program writes exactly r followed by
one newline to standard output, writes nothing to standard error, and
terminates with exit code 0. -/
theorem claim_C2_success_passthrough (argv : List String) (d : DelegateBehavior) (r : String)
    (hlen : 2 ≤ argv.length)
    (hok : delegateCall d (promptOf argv) = .ok r) :
    (main argv d).stdout = r ++ "\n" ∧
    (main argv d).stderr = "" ∧ (main argv d).exitCode = 0 :=
  main_ok_eq argv d r hlen hok

/-- Witness for C2: a delegate returning "Hello, world!" on prompt "hi"
yields exactly that line on stdout, empty stderr, exit code 0. -/
theorem claim_C2_success_passthrough_witness :
    (main ["prog", "hi"] (okDelegate "Hello, world!")).stdout = "Hello, world!" ++ "\n" ∧
    (main ["prog", "hi"] (okDelegate "Hello, world!")).stderr = "" ∧
    (main ["prog", "hi"] (okDelegate "Hello, world!")).exitCode = 0 :=
  claim_C2_success_passthrough ["prog", "hi"] (okDelegate "Hello, world!") "Hello, world!"
    (by decide) rfl

/-- C3: for every invocation whose argument sequence contains fewer than
one element after the program name, the program writes exactly the single
line "Error: No prompt provided" to standard error, writes nothing to
standard output, and terminates with exit code 1. -/
theorem claim_C3_missing_argument (argv : List String) (d : DelegateBehavior)
    (hlen : argv.length < 2) :
    (main argv d).stderr = "Error: No prompt provided" ++ "\n" ∧
    (main argv d).stdout = "" ∧ (main argv d).exitCode = 1 := by
  unfold main
  rw [if_pos hlen]
  exact ⟨rfl, rfl, rfl⟩

/-- Witness for C3: invoking with only the program name produces the
missing-argument diagnostic, empty stdout, and exit code 1. -/
theorem claim_C3_missing_argument_witness :
    (main ["prog"] (okDelegate "never")).stderr = "Error: No prompt provided" ++ "\n" ∧
    (main ["prog"] (okDelegate "never")).stdout = "" ∧
    (main ["prog"] (okDelegate "never")).exitCode = 1 :=
  claim_C3_missing_argument ["prog"] (okDelegate "never") (by decide)

/-- C4: for every string supplied as the first prompt argument (including
the empty string and strings with embedded whitespace or punctuation),
the string delivered as the sole input to the delegate's query operation
is character-for-character identical to it, with no trimming, escaping,
or other transformation. -/
theorem claim_C4_argument_verbatim (prog p : String) (rest : List String)
    (d : DelegateBehavior) (hc : d.construct = .ok ()) :
    (main (prog :: p :: rest) d).queried = some p := by
  unfold main
  rw [if_neg (by simp only [List.length_cons]; omega)]
  simp only [hc]
  cases hq : d.query (promptOf (prog :: p :: rest)) with
  | error e => simp [hq, promptOf_cons]
  | ok r => simp [hq, promptOf_cons]

/-- Witness for C4: a prompt with embedded whitespace and punctuation is
delivered to the query operation unchanged, even with extra arguments
present. -/
theorem claim_C4_argument_verbatim_witness :
    (main ["prog", "  spaced, punctuated! ", "extra"] (okDelegate "r")).queried =
      some "  spaced, punctuated! " :=
  claim_C4_argument_verbatim "prog" "  spaced, punctuated! " ["extra"] (okDelegate "r") rfl

/-- C5: for every invocation, every argument list, and every behavior of
the delegate (returning or raising any fault of any kind), the process
terminates with exit code 0 or exit code 1 and never with any other
code. -/
theorem claim_C5_exit_code_exhaustive (argv : List String) (d : DelegateBehavior) :
    (main argv d).exitCode = 0 ∨ (main argv d).exitCode = 1 := by
  unfold main
  by_cases hl : argv.length < 2
  · rw [if_pos hl]
    exact Or.inr rfl
  · rw [if_neg hl]
    cases hc : d.construct with
    | error e => exact Or.inr rfl
    | ok u =>
      cases u
      cases hq : d.query (promptOf argv) with
      | error e => exact Or.inr rfl
      | ok r => exact Or.inl rfl

/-- C6: in every single invocation, output goes to exactly one of the two
streams: a run that exits 0 writes bytes to standard output only, a run
that exits 1 writes bytes to standard error only; no run ever writes to
both streams. -/
theorem claim_C6_stream_separation (argv : List String) (d : DelegateBehavior) :
    ((main argv d).exitCode = 0 ∧ (main argv d).stderr = "" ∧ (main argv d).stdout ≠ "") ∨
    ((main argv d).exitCode = 1 ∧ (main argv d).stdout = "" ∧ (main argv d).stderr ≠ "") := by
  unfold main
  by_cases hl : argv.length < 2
  · rw [if_pos hl]
    exact Or.inr ⟨rfl, rfl, append_newline_ne_empty _⟩
  · rw [if_neg hl]
    cases hc : d.construct with
    | error e => exact Or.inr ⟨rfl, rfl, append_newline_ne_empty _⟩
    | ok u =>
      cases u
      cases hq : d.query (promptOf argv) with
      | error e => exact Or.inr ⟨rfl, rfl, append_newline_ne_empty _⟩
      | ok r => exact Or.inl ⟨rfl, rfl, append_newline_ne_empty _⟩

/-- C7: if the first prompt argument is supplied and is the empty string,
the program accepts it — the missing-argument error does not occur, the
client is constructed — and proceeds to invoke the delegate's query
operation with the empty string. -/
theorem claim_C7_empty_prompt_accepted (prog : String) (rest : List String)
    (d : DelegateBehavior) (hc : d.construct = .ok ()) :
    (main (prog :: "" :: rest) d).constructed = true ∧
    (main (prog :: "" :: rest) d).queried = some "" := by
  unfold main
  rw [if_neg (by simp only [List.length_cons]; omega)]
  simp only [hc]
  cases hq : d.query (promptOf (prog :: "" :: rest)) with
  | error e => simp [hq, promptOf_cons]
  | ok r => simp [hq, promptOf_cons]

/-- Witness for C7: invoking with the empty string as the prompt reaches
the query operation with the empty string. -/
theorem claim_C7_empty_prompt_accepted_witness :
    (main ["prog", ""] (okDelegate "answer")).constructed = true ∧
    (main ["prog", ""] (okDelegate "answer")).queried = some "" :=
  claim_C7_empty_prompt_accepted "prog" [] (okDelegate "answer") rfl

/-- C8: for any two invocations with the same argument list in which the
delegate raises faults with identical textual descriptions, the bytes
written to standard error and the exit codes of the two runs are
identical — failure formatting is deterministic. -/
theorem claim_C8_failure_determinism (argv : List String) (d1 d2 : DelegateBehavior)
    (e : String)
    (h1 : delegateCall d1 (promptOf argv) = .error e)
    (h2 : delegateCall d2 (promptOf argv) = .error e) :
    (main argv d1).stderr = (main argv d2).stderr ∧
    (main argv d1).exitCode = (main argv d2).exitCode := by
  by_cases hl : argv.length < 2
  · unfold main
    rw [if_pos hl, if_pos hl]
    exact ⟨rfl, rfl⟩
  · have g1 := main_fault_eq argv d1 e (by omega) h1
    have g2 := main_fault_eq argv d2 e (by omega) h2
    exact ⟨g1.1.trans g2.1.symm, g1.2.2.trans g2.2.2.symm⟩

/-- Witness for C8: a query fault and a construction fault with the same
description "rate limited" produce byte-identical stderr and equal exit
codes. -/
theorem claim_C8_failure_determinism_witness :
    (main ["prog", "hi"] (faultingDelegate "rate limited")).stderr =
      (main ["prog", "hi"] (constructFaultDelegate "rate limited")).stderr ∧
    (main ["prog", "hi"] (faultingDelegate "rate limited")).exitCode =
      (main ["prog", "hi"] (constructFaultDelegate "rate limited")).exitCode :=
  claim_C8_failure_determinism ["prog", "hi"] (faultingDelegate "rate limited")
    (constructFaultDelegate "rate limited") "rate limited" rfl rfl

/-- C9: argument validation precedes the delegate call — for every
invocation with fewer than one argument after the program name, the
external query client is never constructed and its query operation is
never invoked. -/
theorem claim_C9_validation_precedes_delegate (argv : List String) (d : DelegateBehavior)
    (hlen : argv.length < 2) :
    (main argv d).constructed = false ∧ (main argv d).queried = none := by
  unfold main
  rw [if_pos hlen]
  exact ⟨rfl, rfl⟩

/-- Witness for C9: with an empty argument vector, even a faulting
delegate is never constructed and never queried. -/
theorem claim_C9_validation_precedes_delegate_witness :
    (main [] (faultingDelegate "boom")).constructed = false ∧
    (main [] (faultingDelegate "boom")).queried = none :=
  claim_C9_validation_precedes_delegate [] (faultingDelegate "boom") (by decide)

/-- C10: for every invocation with two or more arguments after the program
name, only the first argument is used as the prompt; all further arguments
are silently ignored and have no effect on the string delivered to the
delegate, the output, or the exit code. -/
theorem claim_C10_extra_args_ignored (prog p : String) (rest1 rest2 : List String)
    (d : DelegateBehavior) :
    main (prog :: p :: rest1) d = main (prog :: p :: rest2) d := by
  unfold main
  rw [if_neg (by simp only [List.length_cons]; omega),
      if_neg (by simp only [List.length_cons]; omega)]
  simp only [promptOf_cons]

end ClaudeWrapper
